import Mathlib

/-!
Verification of the core scoring and policy logic of `adwscan.py`
(Android-Adware-Cleaner).

The development shallowly embeds the pure core of the tool:

* `parse_requested_permissions` : the line/token scan of `dumpsys package`
  text (source lines 342-354), including the regex
  `([A-Z_]{3,}|android\.permission\.[A-Z_]+)` modelled as an explicit
  left-to-right scanner with first-alternative preference and greedy runs,
  Python `str.splitlines`, `str.strip`, `str.isupper`, set accumulation and
  `sorted` (code-point lexicographic, matching Lean's `String` order).
* `score_package` : the scoring pipeline (source lines 363-540).  The
  evidence the Python method gathers through adb sub-queries (installer,
  paths, launcher probe, dumpsys text, appops text) is passed in as an
  `Evidence` record: each rule then reads exactly the fields the source
  reads.  The wall-clock string `ts_iso()` stored under the "time" key of
  the details dict is passed as an explicit `time` argument.  Scores are
  Python ints, modelled as `Int`; the only subtraction in the source is
  `score = max(0, score - 10)` which is embedded verbatim.  The details
  dict is modelled as the association list of its entries in insertion
  order, with the Python values wrapped in the `DVal` sum type.
* `apply_policy` : the policy decision plus "actioned" ledger
  (source lines 657-719).  The ledger (a Python dict) is an association
  list; the console output relevant to the claims (which action branch ran
  and whether the safety-downgrade notice was printed) is returned in the
  `ApplyResult`.
* `count_recent` : the rolling-window count (source lines 605-608), with
  the float timestamps modelled as `Int` (only order and subtraction are
  used by the source).

Strings are handled at code-point level; Python's `str.lower` is modelled
for the ASCII range, which covers every catalog constant of the source.
-/

-- ===== Python string primitives =====

/-- ASCII lower-casing of one character, as Python `str.lower` acts on the
ASCII range (the only cased characters in the source's catalogs). -/
def pyCharLower (c : Char) : Char :=
  if 'A' ≤ c ∧ c ≤ 'Z' then Char.ofNat (c.toNat + 32) else c

/-- Python `s.lower()` (ASCII range). -/
def pyLower (s : String) : String := String.mk (s.data.map pyCharLower)

/-- Substring test on character lists: Python's `needle in hay`. -/
def listInfixB (needle : List Char) : List Char → Bool
  | [] => needle.isEmpty
  | c :: t => needle.isPrefixOf (c :: t) || listInfixB needle t

/-- Python `needle in hay` on strings. -/
def strContains (needle hay : String) : Bool := listInfixB needle.data hay.data

/-- Characters Python `str.strip()` removes and `\s` matches
(space, tab, newline, carriage return, vertical tab, form feed). -/
def pySpaceChar (c : Char) : Bool :=
  c = ' ' || c = '\t' || c = '\n' || c = '\r' || c = '\x0b' || c = '\x0c'

/-- Python `s.strip()`. -/
def pyStrip (s : String) : String :=
  String.mk (((s.data.dropWhile pySpaceChar).reverse.dropWhile pySpaceChar).reverse)

/-- Line-break characters recognised by Python `str.splitlines`. -/
def pyNewlineChar (c : Char) : Bool :=
  c = '\n' || c = '\r' || c = '\x0b' || c = '\x0c' || c = '\x1c' ||
  c = '\x1d' || c = '\x1e' || c = '\x85' || c = '\u2028' || c = '\u2029'

/-- Worker for `pySplitlines`: `cur` is the line collected so far. -/
def pySplitlinesAux (cur : List Char) : List Char → List String
  | [] => if cur.isEmpty then [] else [String.mk cur]
  | '\r' :: '\n' :: rest => String.mk cur :: pySplitlinesAux [] rest
  | c :: rest =>
    if pyNewlineChar c then String.mk cur :: pySplitlinesAux [] rest
    else pySplitlinesAux (cur ++ [c]) rest

/-- Python `s.splitlines()`. -/
def pySplitlines (s : String) : List String := pySplitlinesAux [] s.data

/-- Python `s.isupper()` for ASCII text: at least one cased character and
no lower-case one (the tokens fed to it are made of `A`-`Z`, `_`, `.`). -/
def pyIsUpper (s : String) : Bool :=
  s.data.any Char.isUpper && !(s.data.any Char.isLower)

-- ===== Catalog constants (source lines 44-95, 429-436) =====

def BUILTIN_ALLOWLIST_PREFIXES : List String :=
  ["com.android.", "com.google.android.", "com.google.", "android."]

/-- `sorted(BUILTIN_ALLOWLIST_EXACT)` as `_load_allowlist` stores it. -/
def BUILTIN_ALLOWLIST_EXACT : List String :=
  ["com.android.packageinstaller", "com.android.settings",
   "com.android.systemui", "com.google.android.gms",
   "com.google.android.gsf", "com.google.android.packageinstaller"]

def SUSPICIOUS_NAME_KEYWORDS : List String :=
  ["ad", "ads", "advert", "offer", "promo", "boost", "cleaner", "junk",
   "speed", "battery", "vpn", "browser"]

def PERM_SIGNALS : List (String × Nat) :=
  [("SYSTEM_ALERT_WINDOW", 35),
   ("BIND_ACCESSIBILITY_SERVICE", 35),
   ("PACKAGE_USAGE_STATS", 15),
   ("RECEIVE_BOOT_COMPLETED", 12),
   ("FOREGROUND_SERVICE", 8),
   ("POST_NOTIFICATIONS", 5),
   ("WAKE_LOCK", 5),
   ("REQUEST_INSTALL_PACKAGES", 20)]

def APPOPS_SIGNALS : List (String × Nat) :=
  [("SYSTEM_ALERT_WINDOW", 25),
   ("GET_USAGE_STATS", 15),
   ("REQUEST_INSTALL_PACKAGES", 10)]

def BEHAVIOR_TEXT_SIGNALS : List (String × String × Nat) :=
  [("android.intent.action.BOOT_COMPLETED", ("BOOT_COMPLETED receiver/intent", 15)),
   ("android.intent.action.USER_PRESENT", ("USER_PRESENT receiver/intent", 20)),
   ("INSTALL_SHORTCUT", ("shortcut creation behavior", 10)),
   ("android.intent.action.PACKAGE_ADDED", ("PACKAGE_ADDED receiver/intent", 8)),
   ("android.intent.action.PACKAGE_REPLACED", ("PACKAGE_REPLACED receiver/intent", 8))]

/-- `trusted_installers` (source lines 429-436). -/
def trusted_installers : List String :=
  ["com.android.vending", "com.google.android.packageinstaller",
   "com.android.packageinstaller", "com.sec.android.app.samsungapps",
   "com.huawei.appmarket", "com.xiaomi.market"]

-- ===== Allowlist (source lines 258-264) =====

structure Allowlist where
  exact : List String
  prefixes : List String
deriving DecidableEq

def defaultAllowlist : Allowlist :=
  ⟨BUILTIN_ALLOWLIST_EXACT, BUILTIN_ALLOWLIST_PREFIXES⟩

/-- `AdwScan.is_allowlisted`: exact membership or `startswith` on any
allowlist name prefix. -/
def is_allowlisted (al : Allowlist) (pkg : String) : Bool :=
  decide (pkg ∈ al.exact) || al.prefixes.any (fun pfx => pfx.data.isPrefixOf pkg.data)

-- ===== parse_requested_permissions (source lines 342-354) =====

/-- Character class `[A-Z_]` of the permission token regex. -/
def isPermTokChar (c : Char) : Bool := ('A' ≤ c ∧ c ≤ 'Z') || c = '_'

/-- `re.findall(r"([A-Z_]{3,}|android\.permission\.[A-Z_]+)", line)`:
left-to-right scan; at each position the first alternative (a greedy run
of at least three `[A-Z_]` characters) is tried first, then the literal
`android.permission.` followed by a non-empty `[A-Z_]` run; on failure the
scan advances one character.  `fuel` (instantiated with the line length,
an upper bound on the number of scan steps) makes the recursion
structural. -/
def findPermTokensGo (fuel : Nat) (l : List Char) : List String :=
  match fuel with
  | 0 => []
  | fuel + 1 =>
    match l with
    | [] => []
    | c :: rest =>
      let run := (c :: rest).takeWhile isPermTokChar
      if 3 ≤ run.length then
        String.mk run :: findPermTokensGo fuel ((c :: rest).drop run.length)
      else if "android.permission.".data.isPrefixOf (c :: rest) then
        let l2 := (c :: rest).drop 19
        let run2 := l2.takeWhile isPermTokChar
        if 1 ≤ run2.length then
          String.mk ("android.permission.".data ++ run2) ::
            findPermTokensGo fuel (l2.drop run2.length)
        else findPermTokensGo fuel rest
      else findPermTokensGo fuel rest

def findPermTokens (line : String) : List String :=
  findPermTokensGo line.data.length line.data

/-- The line filter of `parse_requested_permissions`:
`"permission." in line or line.strip().startswith("android.permission.")
or line.strip().startswith("com.android.")`. -/
def permLineRelevant (line : String) : Bool :=
  strContains "permission." line ||
  "android.permission.".data.isPrefixOf (pyStrip line).data ||
  "com.android.".data.isPrefixOf (pyStrip line).data

/-- Python `x.split(".")[-1]`: the suffix after the last dot. -/
def lastDotComponent (s : String) : String :=
  String.mk ((s.data.reverse.takeWhile (fun c => c ≠ '.')).reverse)

/-- Set insertion, keeping first-insertion order (the order is erased by
the final sort; only the resulting set matters). -/
def insertIfAbsent (l : List String) (x : String) : List String :=
  if x ∈ l then l else l ++ [x]

/-- The per-token accumulation of `parse_requested_permissions`:
qualified names are reduced to their last component, bare tokens must
satisfy `x.isupper()`. -/
def permTokenStep (acc : List String) (x : String) : List String :=
  if "android.permission.".data.isPrefixOf x.data then
    insertIfAbsent acc (lastDotComponent x)
  else if pyIsUpper x then insertIfAbsent acc x
  else acc

/-- Ascending insertion into a sorted list, by the code-point order that
both Python `sorted` and Lean's `String` order use. -/
def insertSorted (x : String) : List String → List String
  | [] => [x]
  | y :: ys => if x < y then x :: y :: ys else y :: insertSorted x ys

/-- Python `sorted` on a list of distinct strings. -/
def sortStrings (l : List String) : List String := l.foldr insertSorted []

/-- The permission set collected from the relevant lines of the dump
text, before the forced accessibility inclusion and the final sort. -/
def permSetOf (dumpsys_txt : String) : List String :=
  (((pySplitlines dumpsys_txt).filter permLineRelevant).flatMap
    (fun ln => findPermTokens ln)).foldl permTokenStep []

/-- `AdwScan.parse_requested_permissions` (source lines 342-354): the
line scan, the forced inclusion of `BIND_ACCESSIBILITY_SERVICE` when its
literal appears anywhere in the dump text, and `sorted(perms)`. -/
def parse_requested_permissions (dumpsys_txt : String) : List String :=
  sortStrings
    (if strContains "BIND_ACCESSIBILITY_SERVICE" dumpsys_txt then
       insertIfAbsent (permSetOf dumpsys_txt) "BIND_ACCESSIBILITY_SERVICE"
     else permSetOf dumpsys_txt)

-- ===== appops "OP: allow" detection (source lines 468-474) =====

/-- Python `\w` (word character), ASCII scope. -/
def pyWordChar (c : Char) : Bool := c.isAlphanum || c = '_'

/-- Case-insensitive literal match: consume `needle` from the front of
`l`, returning the remainder on success. -/
def ciPrefixRest : List Char → List Char → Option (List Char)
  | [], l => some l
  | _ :: _, [] => none
  | n :: ns, c :: cs =>
    if pyCharLower n = pyCharLower c then ciPrefixRest ns cs else none

/-- The tail `\s*:\s*allow\b` of the appops regex, starting right after
the operation name. -/
def appopsAllowTail (l : List Char) : Bool :=
  match (l.dropWhile pySpaceChar) with
  | ':' :: l2 =>
    match ciPrefixRest "allow".data (l2.dropWhile pySpaceChar) with
    | some [] => true
    | some (c :: _) => !(pyWordChar c)
    | none => false
  | _ => false

/-- One attempted match of `\b<op>\b\s*:\s*allow\b` at the current
position: `prev` is the character before the position (for the leading
word boundary; `op` starts and ends with word characters, and the
trailing boundary after `op` is subsumed by `\s*:`). -/
def appopsMatchAt (op : List Char) (prev : Option Char) (l : List Char) : Bool :=
  (match prev with
   | none => true
   | some c => !(pyWordChar c)) &&
  (match ciPrefixRest op l with
   | some rest => appopsAllowTail rest
   | none => false)

def appopsScan (op : List Char) (prev : Option Char) : List Char → Bool
  | [] => false
  | c :: t => appopsMatchAt op prev (c :: t) || appopsScan op (some c) t

/-- `re.search(rf"\b{op}\b\s*:\s*allow\b", appops_txt, re.IGNORECASE)`
as a Boolean. -/
def appopsAllowMatch (op : String) (txt : String) : Bool :=
  appopsScan op.data none txt.data

-- ===== Data model =====

/-- One parsed `Displayed` event (source lines 102-107); the float
timestamp is modelled as an integer (only order and subtraction are
used). -/
structure Event where
  ts : Int
  pkg : String
  activity : String
  raw : String
deriving DecidableEq

/-- `AdwScan.count_recent` (source lines 605-608): how many of the
package's recorded events are at most `seconds` old at query time `t`. -/
def count_recent (events : List Event) (t : Int) (seconds : Int) : Nat :=
  (events.filter (fun e => decide (t - e.ts ≤ seconds))).length

/-- A Python value stored in the `details` dict of a `ScoreResult`. -/
inductive DVal where
  | vStr : String → DVal
  | vOptStr : Option String → DVal
  | vBool : Bool → DVal
  | vInt : Int → DVal
  | vStrList : List String → DVal
  | vOptBool : Option Bool → DVal
  | vBoolMap : List (String × Bool) → DVal
deriving DecidableEq

/-- Python truthiness of a stored detail value (`bool(x)`). -/
def dvalTruthy : DVal → Bool
  | .vStr s => !(s == "")
  | .vOptStr none => false
  | .vOptStr (some s) => !(s == "")
  | .vBool b => b
  | .vInt n => !(n == 0)
  | .vStrList l => !l.isEmpty
  | .vOptBool none => false
  | .vOptBool (some b) => b
  | .vBoolMap l => !l.isEmpty

/-- `bool(details.get(key))`. -/
def pyTruthy (v : Option DVal) : Bool :=
  match v with
  | none => false
  | some d => dvalTruthy d

/-- The evidence `score_package` works from: the constructor arguments
are the values its adb sub-queries produced (source lines 393-426), plus
the allowlist the instance loaded.  A failed sub-query leaves the
documented default (`none` / `[]` / `""`), exactly as in the source. -/
structure Evidence where
  pkg : String
  allowlist : Allowlist
  installer : Option String
  paths : List String
  launcher_present : Option Bool
  dumpsys_txt : String
  appops_txt : String
deriving DecidableEq

/-- `ScoreResult` (source lines 110-115); `details` is the dict as the
association list of its entries in insertion order. -/
structure ScoreResult where
  pkg : String
  score : Int
  reasons : List String
  details : List (String × DVal)
deriving DecidableEq

-- ===== Scoring rules (source lines 363-540) =====

/-- Frequency tiers (source lines 378-386): the single highest tier. -/
def freqSignal (rc : Nat) : Int × List String :=
  if 8 ≤ rc then (30, ["front-display頻度が高い (" ++ toString rc ++ "/10min)"])
  else if 5 ≤ rc then (20, ["front-display頻度がやや高い (" ++ toString rc ++ "/10min)"])
  else if 3 ≤ rc then (10, ["front-display頻度シグナル (" ++ toString rc ++ "/10min)"])
  else (0, [])

/-- `SUSPICIOUS_NAME_RE.search(pkg)`: one of the ad/optimizer keywords
occurs in the package name, case-insensitively. -/
def suspiciousNameHit (pkg : String) : Bool :=
  SUSPICIOUS_NAME_KEYWORDS.any (fun k => strContains k (pyLower pkg))

/-- Weak package-name signal (source lines 389-391). -/
def nameSignal (pkg : String) : Int × List String :=
  if suspiciousNameHit pkg then (5, ["パッケージ名に広告/最適化系の弱いシグナル"])
  else (0, [])

/-- Installer-trust rule (source lines 437-442). -/
def installerSignal (installer : Option String) : Int × List String :=
  match installer with
  | none => (10, ["インストーラ不明"])
  | some u =>
    if u ∈ trusted_installers then (0, [])
    else (15, ["非標準/未知のインストーラ: " ++ u])

/-- `installer in trusted_installers` on the optional installer: Python's
`None` is never an element of the set of installer names. -/
def memTrusted : Option String → Bool
  | none => false
  | some u => decide (u ∈ trusted_installers)

/-- `any(p.startswith("/data/app/") for p in paths)` (source line 446). -/
def userAppLike (paths : List String) : Bool :=
  paths.any (fun p => "/data/app/".data.isPrefixOf p.data)

/-- `any("/system/" in p or "/product/" in p or "/vendor/" in p ...)`
(source line 448). -/
def systemLike (paths : List String) : Bool :=
  paths.any (fun p =>
    strContains "/system/" p || strContains "/product/" p || strContains "/vendor/" p)

/-- `requested_perms` as `score_package` computes it (source line 454):
the parse runs only on a non-empty dump text. -/
def requestedPermsOf (dumpsys_txt : String) : List String :=
  if dumpsys_txt = "" then [] else parse_requested_permissions dumpsys_txt

/-- Per-permission catalog weights (source lines 456-460), in the order
of the requested-permission list. -/
def permSignal : List String → Int × List String
  | [] => (0, [])
  | p :: rest =>
    let r := permSignal rest
    match PERM_SIGNALS.lookup p with
    | some pts =>
      ((pts : Int) + r.1, ("権限シグナル: " ++ p ++ " (+" ++ toString pts ++ ")") :: r.2)
    | none => r

/-- Accessibility-declared-without-formal-permission bonus
(source lines 462-465). -/
def a11ySignal (dumpsys_txt : String) (perms : List String) : Int × List String :=
  if ¬dumpsys_txt = "" ∧ strContains "AccessibilityService" dumpsys_txt = true ∧
      "BIND_ACCESSIBILITY_SERVICE" ∉ perms then
    (15, ["AccessibilityService 定義の痕跡 (+15)"])
  else (0, [])

/-- AppOps allow-state weights (source lines 468-474), iterated in
catalog order; also returns the `appops_found` list. -/
def appopsGo : List (String × Nat) → String → Int × List String × List String
  | [], _ => (0, [], [])
  | (op, pts) :: rest, txt =>
    let r := appopsGo rest txt
    if appopsAllowMatch op txt then
      ((pts : Int) + r.1,
       ("AppOps許可: " ++ op ++ " (+" ++ toString pts ++ ")") :: r.2.1,
       op :: r.2.2)
    else r

def appopsSignal (appops_txt : String) : Int × List String × List String :=
  appopsGo APPOPS_SIGNALS appops_txt

/-- `parse_behavior_text_signals` (source lines 356-361): the found-map
over the behavior catalog, keyed in catalog order. -/
def behaviorFoundOf (dumpsys_txt : String) : List (String × Bool) :=
  BEHAVIOR_TEXT_SIGNALS.map
    (fun e => (e.1, strContains (pyLower e.1) (pyLower dumpsys_txt)))

/-- Behavior-text weights (source lines 477-485), guarded by a non-empty
dump text as in the source. -/
def behaviorGo : List (String × String × Nat) → String → Int × List String
  | [], _ => (0, [])
  | (key, label, pts) :: rest, dump =>
    let r := behaviorGo rest dump
    if strContains (pyLower key) (pyLower dump) then
      ((pts : Int) + r.1,
       ("挙動シグナル: " ++ label ++ " (+" ++ toString pts ++ ")") :: r.2)
    else r

def behaviorSignal (dumpsys_txt : String) : Int × List String :=
  if dumpsys_txt = "" then (0, []) else behaviorGo BEHAVIOR_TEXT_SIGNALS dumpsys_txt

/-- `bool(behavior_found.get(key))` with `behavior_found = {}` when the
dump text is empty (source lines 491-492). -/
def behaviorFlag (dumpsys_txt : String) (key : String) : Bool :=
  if dumpsys_txt = "" then false
  else ((behaviorFoundOf dumpsys_txt).lookup key).getD false

-- Composite evidence flags (source lines 488-492).

def permsOf (ev : Evidence) : List String := requestedPermsOf ev.dumpsys_txt

def appopsFoundOf (ev : Evidence) : List String := (appopsSignal ev.appops_txt).2.2

def hasOverlayPermOf (ev : Evidence) : Bool :=
  decide ("SYSTEM_ALERT_WINDOW" ∈ permsOf ev) ||
  decide ("SYSTEM_ALERT_WINDOW" ∈ appopsFoundOf ev)

def hasA11yOf (ev : Evidence) : Bool :=
  decide ("BIND_ACCESSIBILITY_SERVICE" ∈ permsOf ev) ||
  (!(ev.dumpsys_txt == "") && strContains "AccessibilityService" ev.dumpsys_txt)

def hasUsageOf (ev : Evidence) : Bool :=
  decide ("PACKAGE_USAGE_STATS" ∈ permsOf ev) ||
  decide ("GET_USAGE_STATS" ∈ appopsFoundOf ev)

def bootRxOf (ev : Evidence) : Bool :=
  behaviorFlag ev.dumpsys_txt "android.intent.action.BOOT_COMPLETED"

def userPresentRxOf (ev : Evidence) : Bool :=
  behaviorFlag ev.dumpsys_txt "android.intent.action.USER_PRESENT"

-- Composite (synergy) rules (source lines 494-525).

/-- Missing/unknown launcher + display frequency (source lines 495-500). -/
def hiddenLauncherSignal (lp : Option Bool) (rc : Nat) : Int × List String :=
  if lp = some false ∧ 3 ≤ rc then
    (15, ["ランチャー無し/非通常 + 前面表示頻度 (HiddenAds系シグナル)"])
  else if lp = none ∧ 5 ≤ rc then
    (8, ["ランチャー不明 + 前面表示高頻度"])
  else (0, [])

/-- overlay + accessibility (source lines 503-505). -/
def overlayA11ySignal (overlay a11y : Bool) : Int × List String :=
  if overlay = true ∧ a11y = true then
    (30, ["overlay + accessibility の組み合わせ (+30)"])
  else (0, [])

/-- overlay + usage stats (source lines 508-510). -/
def overlayUsageSignal (overlay usage : Bool) : Int × List String :=
  if overlay = true ∧ usage = true then
    (15, ["overlay + usage stats の組み合わせ (+15)"])
  else (0, [])

/-- USER_PRESENT + non-normal launcher (source lines 513-515). -/
def userPresentHiddenSignal (up : Bool) (lp : Option Bool) : Int × List String :=
  if up = true ∧ (lp = some false ∨ lp = none) then
    (20, ["USER_PRESENT監視 + ランチャー非通常 (HiddenAds疑い)"])
  else (0, [])

/-- BOOT_COMPLETED + overlay (source lines 518-520). -/
def bootOverlaySignal (boot overlay : Bool) : Int × List String :=
  if boot = true ∧ overlay = true then
    (12, ["BOOT_COMPLETED + overlay (再起動後継続広告の疑い)"])
  else (0, [])

/-- High frequency + overlay + `installer not in trusted_installers`
(source lines 522-525): an unknown installer (`none`) passes the
installer test. -/
def freqInstallerOverlaySignal (rc : Nat) (overlay : Bool) (installer : Option String) :
    Int × List String :=
  if 5 ≤ rc ∧ overlay = true ∧ memTrusted installer = false then
    (15, ["高頻度前面表示 + 非標準インストーラ + overlay"])
  else (0, [])

-- ===== Score assembly (source lines 363-540) =====

/-- Score after steps 2-4 (frequency, name, installer). -/
def baseScore (ev : Evidence) (rc : Nat) : Int :=
  (freqSignal rc).1 + (nameSignal ev.pkg).1 + (installerSignal ev.installer).1

/-- Location safety adjustment `score = max(0, score - 10)`
(source line 450), applied only when a system-area path is present. -/
def locAdjustedScore (ev : Evidence) (rc : Nat) : Int :=
  if systemLike ev.paths then max 0 (baseScore ev rc - 10) else baseScore ev rc

/-- The score before the final 180 clamp: the safety-adjusted base plus
every later additive rule, in source order. -/
def preClampScore (ev : Evidence) (rc : Nat) : Int :=
  locAdjustedScore ev rc +
  (permSignal (permsOf ev)).1 +
  (a11ySignal ev.dumpsys_txt (permsOf ev)).1 +
  (appopsSignal ev.appops_txt).1 +
  (behaviorSignal ev.dumpsys_txt).1 +
  (hiddenLauncherSignal ev.launcher_present rc).1 +
  (overlayA11ySignal (hasOverlayPermOf ev) (hasA11yOf ev)).1 +
  (overlayUsageSignal (hasOverlayPermOf ev) (hasUsageOf ev)).1 +
  (userPresentHiddenSignal (userPresentRxOf ev) ev.launcher_present).1 +
  (bootOverlaySignal (bootRxOf ev) (hasOverlayPermOf ev)).1 +
  (freqInstallerOverlaySignal rc (hasOverlayPermOf ev) ev.installer).1

/-- Final clamp `if score > 180: score = 180` (source lines 536-537). -/
def scoreOf (ev : Evidence) (rc : Nat) : Int :=
  if 180 < preClampScore ev rc then 180 else preClampScore ev rc

/-- The reasons list of the non-allowlisted path, appended in
evidence-discovery order exactly as the source pushes them. -/
def reasonsOf (ev : Evidence) (rc : Nat) : List String :=
  (freqSignal rc).2 ++ (nameSignal ev.pkg).2 ++ (installerSignal ev.installer).2 ++
  (if systemLike ev.paths then ["システム領域アプリの可能性（自動削除は慎重）"] else []) ++
  (permSignal (permsOf ev)).2 ++
  (a11ySignal ev.dumpsys_txt (permsOf ev)).2 ++
  (appopsSignal ev.appops_txt).2.1 ++
  (behaviorSignal ev.dumpsys_txt).2 ++
  (hiddenLauncherSignal ev.launcher_present rc).2 ++
  (overlayA11ySignal (hasOverlayPermOf ev) (hasA11yOf ev)).2 ++
  (overlayUsageSignal (hasOverlayPermOf ev) (hasUsageOf ev)).2 ++
  (userPresentHiddenSignal (userPresentRxOf ev) ev.launcher_present).2 ++
  (bootOverlaySignal (bootRxOf ev) (hasOverlayPermOf ev)).2 ++
  (freqInstallerOverlaySignal rc (hasOverlayPermOf ev) ev.installer).2

/-- The four details entries written before the allowlist short-circuit
(source lines 367-372). -/
def detailsBase (ev : Evidence) (rc : Nat) (time : String) : List (String × DVal) :=
  [("pkg", DVal.vStr ev.pkg),
   ("time", DVal.vStr time),
   ("allowlisted", DVal.vBool (is_allowlisted ev.allowlist ev.pkg)),
   ("recent_count_10m", DVal.vInt rc)]

/-- `composite_flags` (source lines 527-533). -/
def compositeFlagsOf (ev : Evidence) : List (String × Bool) :=
  [("has_overlay_perm", hasOverlayPermOf ev),
   ("has_a11y", hasA11yOf ev),
   ("has_usage", hasUsageOf ev),
   ("boot_receiver", bootRxOf ev),
   ("user_present_receiver", userPresentRxOf ev)]

/-- The details entries written after the allowlist short-circuit, in
insertion order (source lines 424-426, 444-451, 455, 474, 478-480, 527,
539); the conditionally present keys appear exactly when the source
writes them. -/
def detailsTail (ev : Evidence) (rc : Nat) : List (String × DVal) :=
  [("installer", DVal.vOptStr ev.installer),
   ("paths", DVal.vStrList ev.paths),
   ("launcher_present", DVal.vOptBool ev.launcher_present)] ++
  (if userAppLike ev.paths then [("user_app_like", DVal.vBool true)] else []) ++
  (if systemLike ev.paths then [("system_like", DVal.vBool true)] else []) ++
  [("requested_permissions", DVal.vStrList (permsOf ev)),
   ("appops_allow_signals", DVal.vStrList (appopsFoundOf ev))] ++
  (if ev.dumpsys_txt = "" then []
   else [("behavior_text_signals", DVal.vBoolMap (behaviorFoundOf ev.dumpsys_txt))]) ++
  [("composite_flags", DVal.vBoolMap (compositeFlagsOf ev)),
   ("score", DVal.vInt (scoreOf ev rc))]

/-- `AdwScan.score_package` (source lines 363-540) on gathered evidence;
`time` is the `ts_iso()` wall-clock string captured on entry. -/
def score_package (ev : Evidence) (rc : Nat) (time : String) : ScoreResult :=
  if is_allowlisted ev.allowlist ev.pkg then
    ⟨ev.pkg, 0, ["allowlisted"], detailsBase ev rc time⟩
  else
    ⟨ev.pkg, scoreOf ev rc, reasonsOf ev rc, detailsBase ev rc time ++ detailsTail ev rc⟩

-- ===== apply_policy (source lines 657-719) =====

def DEFAULT_WARN_THRESHOLD : Int := 45
def DEFAULT_QUAR_THRESHOLD : Int := 80
def DEFAULT_REMOVE_THRESHOLD : Int := 105

/-- One record of the `actioned` ledger (source lines 690-695). -/
structure LedgerEntry where
  time : String
  action : String
  score : Int
  reasons : List String
deriving DecidableEq

/-- The remediation decision `apply_policy` reached. -/
inductive PolicyAction where
  | skip
  | recordOnly
  | remove
  | quarantine
  | forceStopOnly
deriving DecidableEq

/-- Outcome of one `apply_policy` call: the ledger afterwards, the
branch taken, and whether the `[SAFETY]` downgrade notice was printed. -/
structure ApplyResult where
  actioned : List (String × LedgerEntry)
  action : PolicyAction
  safetyNotice : Bool
deriving DecidableEq

/-- `bool(res.details.get("system_like"))` (source line 683). -/
def systemLikeOf (res : ScoreResult) : Bool :=
  pyTruthy (res.details.lookup "system_like")

/-- The `[SAFETY]` notice condition (source lines 684-685), evaluated
once the warn gate is passed. -/
def safetyNoticeOf (res : ScoreResult) (remove_threshold : Int) : Bool :=
  systemLikeOf res && decide (remove_threshold ≤ res.score)

/-- The action-name string recorded in the ledger, with the dry-run
suffix (source lines 692, 704, 715). -/
def actionName (base : String) (dry_run : Bool) : String :=
  if dry_run then base ++ "(dry-run)" else base

/-- The ledger record written for an executed branch. -/
def mkLedgerEntry (base : String) (dry_run : Bool) (time : String) (res : ScoreResult) :
    LedgerEntry :=
  ⟨time, actionName base dry_run, res.score, res.reasons⟩

/-- `AdwScan.apply_policy` (source lines 657-719): `actioned` is the
ledger (`self.state["actioned"]`), `time` the `ts_iso()` reading used for
a written record. -/
def apply_policy (actioned : List (String × LedgerEntry)) (res : ScoreResult)
    (dry_run : Bool) (warn_threshold quar_threshold remove_threshold : Int)
    (aggressive_remove : Bool) (time : String) : ApplyResult :=
  if (actioned.lookup res.pkg).isSome then ⟨actioned, .skip, false⟩
  else if res.score < warn_threshold then ⟨actioned, .recordOnly, false⟩
  else if remove_threshold ≤ res.score ∧ aggressive_remove = true ∧
      systemLikeOf res = false then
    ⟨actioned ++ [(res.pkg, mkLedgerEntry "remove" dry_run time res)], .remove,
     safetyNoticeOf res remove_threshold⟩
  else if quar_threshold ≤ res.score then
    ⟨actioned ++ [(res.pkg, mkLedgerEntry "quarantine" dry_run time res)], .quarantine,
     safetyNoticeOf res remove_threshold⟩
  else
    ⟨actioned ++ [(res.pkg, mkLedgerEntry "force-stop" dry_run time res)], .forceStopOnly,
     safetyNoticeOf res remove_threshold⟩

-- ===== Helper lemmas =====

theorem freqSignal_nonneg (rc : Nat) : 0 ≤ (freqSignal rc).1 := by
  unfold freqSignal; split_ifs <;> norm_num

theorem nameSignal_nonneg (pkg : String) : 0 ≤ (nameSignal pkg).1 := by
  unfold nameSignal; split_ifs <;> norm_num

theorem installerSignal_nonneg (i : Option String) : 0 ≤ (installerSignal i).1 := by
  cases i with
  | none => norm_num [installerSignal]
  | some u => simp only [installerSignal]; split_ifs <;> norm_num

theorem baseScore_nonneg (ev : Evidence) (rc : Nat) : 0 ≤ baseScore ev rc := by
  have h1 := freqSignal_nonneg rc
  have h2 := nameSignal_nonneg ev.pkg
  have h3 := installerSignal_nonneg ev.installer
  unfold baseScore; omega

theorem locAdjustedScore_nonneg (ev : Evidence) (rc : Nat) : 0 ≤ locAdjustedScore ev rc := by
  unfold locAdjustedScore
  split_ifs with h
  · exact le_max_left 0 _
  · exact baseScore_nonneg ev rc

theorem permSignal_nonneg (l : List String) : 0 ≤ (permSignal l).1 := by
  induction l with
  | nil => norm_num [permSignal]
  | cons p rest ih =>
    simp only [permSignal]
    cases h : PERM_SIGNALS.lookup p with
    | none => exact ih
    | some pts =>
      have : (0 : Int) ≤ (pts : Int) := Int.ofNat_nonneg pts
      simp only []
      omega

theorem a11ySignal_nonneg (d : String) (l : List String) : 0 ≤ (a11ySignal d l).1 := by
  unfold a11ySignal; split_ifs <;> norm_num

theorem appopsGo_nonneg (tbl : List (String × Nat)) (txt : String) :
    0 ≤ (appopsGo tbl txt).1 := by
  induction tbl with
  | nil => norm_num [appopsGo]
  | cons e rest ih =>
    obtain ⟨op, pts⟩ := e
    simp only [appopsGo]
    split_ifs with h
    · have : (0 : Int) ≤ (pts : Int) := Int.ofNat_nonneg pts
      omega
    · exact ih

theorem behaviorGo_nonneg (tbl : List (String × String × Nat)) (d : String) :
    0 ≤ (behaviorGo tbl d).1 := by
  induction tbl with
  | nil => norm_num [behaviorGo]
  | cons e rest ih =>
    obtain ⟨key, label, pts⟩ := e
    simp only [behaviorGo]
    split_ifs with h
    · have : (0 : Int) ≤ (pts : Int) := Int.ofNat_nonneg pts
      omega
    · exact ih

theorem behaviorSignal_nonneg (d : String) : 0 ≤ (behaviorSignal d).1 := by
  unfold behaviorSignal; split_ifs with h
  · norm_num
  · exact behaviorGo_nonneg _ _

theorem hiddenLauncherSignal_nonneg (lp : Option Bool) (rc : Nat) :
    0 ≤ (hiddenLauncherSignal lp rc).1 := by
  unfold hiddenLauncherSignal; split_ifs <;> norm_num

theorem overlayA11ySignal_nonneg (a b : Bool) : 0 ≤ (overlayA11ySignal a b).1 := by
  unfold overlayA11ySignal; split_ifs <;> norm_num

theorem overlayUsageSignal_nonneg (a b : Bool) : 0 ≤ (overlayUsageSignal a b).1 := by
  unfold overlayUsageSignal; split_ifs <;> norm_num

theorem userPresentHiddenSignal_nonneg (up : Bool) (lp : Option Bool) :
    0 ≤ (userPresentHiddenSignal up lp).1 := by
  unfold userPresentHiddenSignal; split_ifs <;> norm_num

theorem bootOverlaySignal_nonneg (a b : Bool) : 0 ≤ (bootOverlaySignal a b).1 := by
  unfold bootOverlaySignal; split_ifs <;> norm_num

theorem freqInstallerOverlaySignal_nonneg (rc : Nat) (ov : Bool) (i : Option String) :
    0 ≤ (freqInstallerOverlaySignal rc ov i).1 := by
  unfold freqInstallerOverlaySignal; split_ifs <;> norm_num

theorem preClampScore_nonneg (ev : Evidence) (rc : Nat) : 0 ≤ preClampScore ev rc := by
  have h1 := locAdjustedScore_nonneg ev rc
  have h2 := permSignal_nonneg (permsOf ev)
  have h3 := a11ySignal_nonneg ev.dumpsys_txt (permsOf ev)
  have h4 := appopsGo_nonneg APPOPS_SIGNALS ev.appops_txt
  have h5 := behaviorSignal_nonneg ev.dumpsys_txt
  have h6 := hiddenLauncherSignal_nonneg ev.launcher_present rc
  have h7 := overlayA11ySignal_nonneg (hasOverlayPermOf ev) (hasA11yOf ev)
  have h8 := overlayUsageSignal_nonneg (hasOverlayPermOf ev) (hasUsageOf ev)
  have h9 := userPresentHiddenSignal_nonneg (userPresentRxOf ev) ev.launcher_present
  have h10 := bootOverlaySignal_nonneg (bootRxOf ev) (hasOverlayPermOf ev)
  have h11 := freqInstallerOverlaySignal_nonneg rc (hasOverlayPermOf ev) ev.installer
  unfold preClampScore appopsSignal
  unfold appopsSignal at h4
  omega

-- ===== Claim theorems =====

/-- C3: for every evidence combination and recent count, the score field
of the `ScoreResult` returned by `score_package` lies in the closed
interval `[0, 180]`: the final clamp bounds it above by 180, and no rule
sequence (in particular the `system_like` subtraction, which the source
floors with `max(0, score - 10)`) can drive it below 0. -/
theorem score_package_score_in_range (ev : Evidence) (rc : Nat) (time : String) :
    0 ≤ (score_package ev rc time).score ∧ (score_package ev rc time).score ≤ 180 := by
  by_cases h : is_allowlisted ev.allowlist ev.pkg
  · simp only [score_package, if_pos h]
    exact ⟨le_refl 0, by norm_num⟩
  · simp only [score_package, if_neg h]
    have h0 := preClampScore_nonneg ev rc
    unfold scoreOf
    split_ifs with h1 <;> omega

/-- C6: a package matching the allowlist (exactly or by name prefix)
scores exactly 0 with reasons `["allowlisted"]`, short-circuiting every
other scoring rule whatever the remaining evidence and recent count. -/
theorem score_package_allowlisted (ev : Evidence) (rc : Nat) (time : String)
    (h : is_allowlisted ev.allowlist ev.pkg = true) :
    (score_package ev rc time).score = 0 ∧
    (score_package ev rc time).reasons = ["allowlisted"] := by
  simp [score_package, h]

theorem score_package_allowlisted_witness :
    is_allowlisted defaultAllowlist "com.android.settings" = true ∧
    ((score_package ⟨"com.android.settings", defaultAllowlist, none, [], none,
        "android.permission.SYSTEM_ALERT_WINDOW", ""⟩ 9 "2026-01-05 12:00:00").score = 0 ∧
     (score_package ⟨"com.android.settings", defaultAllowlist, none, [], none,
        "android.permission.SYSTEM_ALERT_WINDOW", ""⟩ 9 "2026-01-05 12:00:00").reasons =
       ["allowlisted"]) :=
  ⟨by decide,
   score_package_allowlisted ⟨"com.android.settings", defaultAllowlist, none, [], none,
     "android.permission.SYSTEM_ALERT_WINDOW", ""⟩ 9 "2026-01-05 12:00:00" (by decide)⟩

/-- C4: a package with an entry in the `actioned` ledger makes every
subsequent `apply_policy` call a no-op — no remediation branch runs and
the ledger is returned unchanged — whatever score is passed in. -/
theorem apply_policy_already_actioned (actioned : List (String × LedgerEntry))
    (res : ScoreResult) (dry_run : Bool) (wt qt rt : Int) (ag : Bool) (time : String)
    (h : (actioned.lookup res.pkg).isSome = true) :
    apply_policy actioned res dry_run wt qt rt ag time =
      ⟨actioned, PolicyAction.skip, false⟩ := by
  simp only [apply_policy, if_pos h]

theorem apply_policy_already_actioned_witness :
    (([("app.alpha", (⟨"2026-01-01 00:00:00", "quarantine", 90,
        []⟩ : LedgerEntry))].lookup ("app.alpha")).isSome = true) ∧
    apply_policy [("app.alpha", ⟨"2026-01-01 00:00:00", "quarantine", 90, []⟩)]
      ⟨"app.alpha", 200, [], []⟩ true 45 80 105 true "2026-01-02 00:00:00" =
      ⟨[("app.alpha", ⟨"2026-01-01 00:00:00", "quarantine", 90, []⟩)],
       PolicyAction.skip, false⟩ :=
  ⟨by decide,
   apply_policy_already_actioned
     [("app.alpha", ⟨"2026-01-01 00:00:00", "quarantine", 90, []⟩)]
     ⟨"app.alpha", 200, [], []⟩ true 45 80 105 true "2026-01-02 00:00:00" (by decide)⟩

/-- C7: for a package not in the ledger whose score is below the warn
threshold, `apply_policy` takes no remediation action and writes nothing:
the ledger comes back unchanged, so the package can be re-evaluated. -/
theorem apply_policy_below_warn (actioned : List (String × LedgerEntry))
    (res : ScoreResult) (dry_run : Bool) (wt qt rt : Int) (ag : Bool) (time : String)
    (h1 : actioned.lookup res.pkg = none) (h2 : res.score < wt) :
    apply_policy actioned res dry_run wt qt rt ag time =
      ⟨actioned, PolicyAction.recordOnly, false⟩ := by
  have h1' : ¬((actioned.lookup res.pkg).isSome = true) := by
    rw [h1]; simp
  simp only [apply_policy, if_neg h1', if_pos h2]

theorem apply_policy_below_warn_witness :
    (([] : List (String × LedgerEntry)).lookup "app.beta" = none) ∧ ((30 : Int) < 45) ∧
    apply_policy [] ⟨"app.beta", 30, ["r"], []⟩ true 45 80 105 false "2026-01-03 00:00:00" =
      ⟨[], PolicyAction.recordOnly, false⟩ :=
  ⟨by decide, by decide,
   apply_policy_below_warn [] ⟨"app.beta", 30, ["r"], []⟩ true 45 80 105 false
     "2026-01-03 00:00:00" (by decide) (by decide)⟩

/-- C5: for a result marked `system_like` whose score reaches the remove
threshold, with aggressive-remove enabled (and thresholds ordered at or
below the remove threshold, as the defaults 45/80/105 are, for a package
not yet in the ledger), `apply_policy` takes the QUARANTINE branch — never
REMOVE — and prints the distinct `[SAFETY]` downgrade notice. -/
theorem apply_policy_system_like_downgrade (actioned : List (String × LedgerEntry))
    (res : ScoreResult) (dry_run : Bool) (wt qt rt : Int) (ag : Bool) (time : String)
    (h1 : actioned.lookup res.pkg = none) (h2 : systemLikeOf res = true)
    (h3 : rt ≤ res.score) (h4 : ag = true) (h5 : wt ≤ rt) (h6 : qt ≤ rt) :
    (apply_policy actioned res dry_run wt qt rt ag time).action = PolicyAction.quarantine ∧
    (apply_policy actioned res dry_run wt qt rt ag time).safetyNotice = true ∧
    (apply_policy actioned res dry_run wt qt rt ag time).action ≠ PolicyAction.remove := by
  have h1' : ¬((actioned.lookup res.pkg).isSome = true) := by
    rw [h1]; simp
  have hw : ¬(res.score < wt) := by omega
  have hr : ¬(rt ≤ res.score ∧ ag = true ∧ systemLikeOf res = false) := by
    rintro ⟨-, -, hx⟩
    rw [h2] at hx
    simp at hx
  have hq : qt ≤ res.score := by omega
  have key : apply_policy actioned res dry_run wt qt rt ag time =
      ⟨actioned ++ [(res.pkg, mkLedgerEntry "quarantine" dry_run time res)],
       PolicyAction.quarantine, safetyNoticeOf res rt⟩ := by
    simp only [apply_policy, if_neg h1', if_neg hw, if_neg hr, if_pos hq]
  rw [key]
  refine ⟨rfl, ?_, fun hcon => PolicyAction.noConfusion hcon⟩
  show safetyNoticeOf res rt = true
  unfold safetyNoticeOf
  rw [h2]
  simpa using h3

theorem apply_policy_system_like_downgrade_witness :
    (([] : List (String × LedgerEntry)).lookup "app.gamma" = none) ∧
    systemLikeOf ⟨"app.gamma", 120, [], [("system_like", DVal.vBool true)]⟩ = true ∧
    ((105 : Int) ≤ 120) ∧
    ((apply_policy [] ⟨"app.gamma", 120, [], [("system_like", DVal.vBool true)]⟩ false
        45 80 105 true "2026-01-04 00:00:00").action = PolicyAction.quarantine ∧
     (apply_policy [] ⟨"app.gamma", 120, [], [("system_like", DVal.vBool true)]⟩ false
        45 80 105 true "2026-01-04 00:00:00").safetyNotice = true ∧
     (apply_policy [] ⟨"app.gamma", 120, [], [("system_like", DVal.vBool true)]⟩ false
        45 80 105 true "2026-01-04 00:00:00").action ≠ PolicyAction.remove) :=
  ⟨by decide, by decide, by decide,
   apply_policy_system_like_downgrade [] ⟨"app.gamma", 120, [], [("system_like", DVal.vBool true)]⟩
     false 45 80 105 true "2026-01-04 00:00:00" (by decide) (by decide) (by decide)
     (by decide) (by decide) (by decide)⟩

/-- C1 (counterexample): two `score_package` calls with identical
evidence and recent count but different wall-clock readings do not return
identical `ScoreResult`s — the `"time"` entry of the details dict records
`ts_iso()` at the call, so the details mappings differ. -/
theorem score_package_not_time_invariant :
    ¬(score_package ⟨"app.one", ⟨[], []⟩, none, [], none, "", ""⟩ 0 "2026-01-01 10:00:00" =
      score_package ⟨"app.one", ⟨[], []⟩, none, [], none, "", ""⟩ 0 "2026-01-01 10:00:01") := by
  decide

/-- C1 (amended): two `score_package` calls with identical evidence and
recent count return the same score, the same reasons list in the same
order, and details mappings identical except possibly at the `"time"` key
(which records the wall clock of each call). -/
theorem score_package_deterministic_up_to_time (ev : Evidence) (rc : Nat) (t1 t2 : String) :
    (score_package ev rc t1).score = (score_package ev rc t2).score ∧
    (score_package ev rc t1).reasons = (score_package ev rc t2).reasons ∧
    (score_package ev rc t1).details.filter (fun kv => kv.1 != "time") =
      (score_package ev rc t2).details.filter (fun kv => kv.1 != "time") := by
  by_cases h : is_allowlisted ev.allowlist ev.pkg
  · simp only [score_package, if_pos h]
    exact ⟨trivial, trivial, rfl⟩
  · simp only [score_package, if_neg h]
    exact ⟨trivial, trivial, rfl⟩

/-- The canonical evidence of the end-to-end scenario: overlay permission
requested, accessibility declaration text in the dump, unknown installer,
launcher absent, no allowlist match, and no further evidence. -/
def scenarioEvidence : Evidence :=
  ⟨"com.example.scenario", defaultAllowlist, none,
   ["/data/app/com.example.scenario/base.apk"], some false,
   "android.permission.SYSTEM_ALERT_WINDOW\nAccessibilityService", ""⟩

/-- C2 (counterexample): on the stated scenario the score is 150, not at
least 155 — the accessibility evidence present only as declaration text
earns the +15 bonus of source line 464, not the +35 catalog weight the
expected sum assumes (and the frequency+installer+overlay synergy of
source line 524 adds +15 the sum omits). -/
theorem scenario_score_below_155 :
    ¬(155 ≤ (score_package scenarioEvidence 10 "2026-01-06 09:00:00").score) := by
  decide

/-- C2 (amended): on the scenario — recent count 10, overlay permission
requested, accessibility declaration text in the dump, unknown installer,
launcher absent, no allowlist match — `score_package` returns exactly 150
(30 frequency + 10 unknown installer + 35 overlay permission + 15
accessibility-declaration bonus + 15 launcher-absent synergy + 30
overlay/accessibility synergy + 15 frequency/installer/overlay synergy),
and `apply_policy` with the default thresholds 45/80/105 and
aggressive-remove disabled chooses QUARANTINE. -/
theorem scenario_score_and_policy :
    (score_package scenarioEvidence 10 "2026-01-06 09:00:00").score = 150 ∧
    (apply_policy [] (score_package scenarioEvidence 10 "2026-01-06 09:00:00") true
       DEFAULT_WARN_THRESHOLD DEFAULT_QUAR_THRESHOLD DEFAULT_REMOVE_THRESHOLD false
       "2026-01-06 09:00:01").action = PolicyAction.quarantine := by
  decide

-- Membership lemmas for the sort/set pipeline.

theorem mem_insertSorted (x y : String) (l : List String) :
    y ∈ insertSorted x l ↔ y = x ∨ y ∈ l := by
  induction l with
  | nil => simp [insertSorted]
  | cons z zs ih =>
    unfold insertSorted
    split_ifs with h
    · simp [List.mem_cons]
    · simp only [List.mem_cons, ih]
      tauto

theorem mem_sortStrings (y : String) (l : List String) :
    y ∈ sortStrings l ↔ y ∈ l := by
  induction l with
  | nil => simp [sortStrings]
  | cons a l ih =>
    simp only [sortStrings, List.foldr_cons] at *
    rw [mem_insertSorted]
    simp [ih]

theorem mem_insertIfAbsent_self (l : List String) (x : String) :
    x ∈ insertIfAbsent l x := by
  unfold insertIfAbsent
  split_ifs with h
  · exact h
  · simp

/-- C9: for a fixed event list and a fixed query time, `count_recent` is
monotone in the window length: a smaller window never counts more
events. -/
theorem count_recent_mono (events : List Event) (t : Int) (w1 w2 : Int) (h : w1 ≤ w2) :
    count_recent events t w1 ≤ count_recent events t w2 := by
  induction events with
  | nil => simp [count_recent]
  | cons e rest ih =>
    unfold count_recent at ih ⊢
    by_cases h1 : t - e.ts ≤ w1
    · have h2 : t - e.ts ≤ w2 := le_trans h1 h
      rw [List.filter_cons, List.filter_cons, decide_eq_true h1, decide_eq_true h2,
        if_pos rfl, if_pos rfl]
      simp only [List.length_cons]
      exact Nat.succ_le_succ ih
    · by_cases h2 : t - e.ts ≤ w2
      · rw [List.filter_cons, List.filter_cons, decide_eq_false h1, decide_eq_true h2,
          if_neg (by simp), if_pos rfl]
        simp only [List.length_cons]
        exact Nat.le_succ_of_le ih
      · rw [List.filter_cons, List.filter_cons, decide_eq_false h1, decide_eq_false h2,
          if_neg (by simp), if_neg (by simp)]
        exact ih

theorem count_recent_mono_witness :
    ((60 : Int) ≤ 600) ∧
    count_recent [⟨0, "app.delta", "Main", "raw0"⟩, ⟨500, "app.delta", "Main", "raw1"⟩]
      550 60 ≤
    count_recent [⟨0, "app.delta", "Main", "raw0"⟩, ⟨500, "app.delta", "Main", "raw1"⟩]
      550 600 :=
  ⟨by decide,
   count_recent_mono [⟨0, "app.delta", "Main", "raw0"⟩, ⟨500, "app.delta", "Main", "raw1"⟩]
     550 60 600 (by decide)⟩

/-- C10: in the high-frequency + overlay + non-standard-installer synergy
rule, the installer condition is `installer not in trusted_installers` on
the optional installer, so an unknown installer (`none`) satisfies it:
the +15 fires exactly when the count is at least 5, overlay evidence is
present and the installer is not a trusted one — including the
no-installer case — whereas the base installer rule's +15 branch demands
a known untrusted installer (an unknown installer gets +10 there), making
the synergy rule's installer condition strictly weaker. -/
theorem freqInstallerOverlay_installer_condition (rc : Nat) (ov : Bool) (i : Option String) :
    ((freqInstallerOverlaySignal rc ov i).1 = 15 ↔
      (5 ≤ rc ∧ ov = true ∧ memTrusted i = false)) ∧
    memTrusted none = false ∧
    (∀ u : String, (installerSignal (some u)).1 = 15 → memTrusted (some u) = false) ∧
    (installerSignal none).1 = 10 := by
  refine ⟨?_, rfl, ?_, rfl⟩
  · unfold freqInstallerOverlaySignal
    split_ifs with hc
    · simp only [hc]
      norm_num
    · constructor
      · intro h15
        norm_num at h15
      · intro hc'
        exact absurd hc' hc
  · intro u h15
    simp only [installerSignal] at h15
    by_cases hu : u ∈ trusted_installers
    · rw [if_pos hu] at h15
      norm_num at h15
    · simp [memTrusted, hu]

theorem freqInstallerOverlay_installer_condition_witness :
    (freqInstallerOverlaySignal 5 true none).1 = 15 :=
  ((freqInstallerOverlay_installer_condition 5 true none).1).mpr (by decide)

/-- A permission present in the list contributes its catalog weight, so
the total is at least that weight. -/
theorem permSignal_mem_ge (l : List String) (p : String) (w : Nat)
    (hm : p ∈ l) (hw : PERM_SIGNALS.lookup p = some w) :
    (w : Int) ≤ (permSignal l).1 := by
  induction l with
  | nil => cases hm
  | cons q rest ih =>
    rcases List.mem_cons.mp hm with rfl | hm'
    · have hr := permSignal_nonneg rest
      simp only [permSignal, hw]
      omega
    · have hr := ih hm'
      simp only [permSignal]
      cases hl : PERM_SIGNALS.lookup q with
      | none => simpa using hr
      | some pts =>
        have : (0 : Int) ≤ (pts : Int) := Int.ofNat_nonneg pts
        simp only []
        omega

/-- C8: the +15 accessibility-declared-without-formal-permission bonus
fires exactly when the declaration signature `AccessibilityService`
occurs in the dump text and `BIND_ACCESSIBILITY_SERVICE` is absent from
the parsed requested-permission list; the parse force-includes
`BIND_ACCESSIBILITY_SERVICE` whenever its literal occurs anywhere in the
dump text; hence the +15 bonus and the +35 catalog weight (which the
permission loop contributes whenever `BIND_ACCESSIBILITY_SERVICE` is in
the list) are never both added for the same dump text. -/
theorem a11y_bonus_iff_no_bind_perm (dump : String) :
    ((a11ySignal dump (requestedPermsOf dump)).1 = 15 ↔
      (strContains "AccessibilityService" dump = true ∧
       "BIND_ACCESSIBILITY_SERVICE" ∉ requestedPermsOf dump)) ∧
    (strContains "BIND_ACCESSIBILITY_SERVICE" dump = true →
      "BIND_ACCESSIBILITY_SERVICE" ∈ requestedPermsOf dump) ∧
    ¬((a11ySignal dump (requestedPermsOf dump)).1 = 15 ∧
      "BIND_ACCESSIBILITY_SERVICE" ∈ requestedPermsOf dump) ∧
    ("BIND_ACCESSIBILITY_SERVICE" ∈ requestedPermsOf dump →
      (35 : Int) ≤ (permSignal (requestedPermsOf dump)).1) := by
  have hiff : (a11ySignal dump (requestedPermsOf dump)).1 = 15 ↔
      (strContains "AccessibilityService" dump = true ∧
       "BIND_ACCESSIBILITY_SERVICE" ∉ requestedPermsOf dump) := by
    constructor
    · intro h15
      unfold a11ySignal at h15
      split_ifs at h15 with hc
      · exact ⟨hc.2.1, hc.2.2⟩
      · norm_num at h15
    · rintro ⟨hsub, hnm⟩
      have hne : ¬dump = "" := by
        intro he
        rw [he] at hsub
        exact absurd hsub (by decide)
      unfold a11ySignal
      rw [if_pos ⟨hne, hsub, hnm⟩]
  have hforce : strContains "BIND_ACCESSIBILITY_SERVICE" dump = true →
      "BIND_ACCESSIBILITY_SERVICE" ∈ requestedPermsOf dump := by
    intro hsub
    have hne : ¬dump = "" := by
      intro he
      rw [he] at hsub
      exact absurd hsub (by decide)
    unfold requestedPermsOf
    rw [if_neg hne]
    unfold parse_requested_permissions
    rw [if_pos hsub, mem_sortStrings]
    exact mem_insertIfAbsent_self _ _
  refine ⟨hiff, hforce, ?_, ?_⟩
  · rintro ⟨h15, hm⟩
    exact (hiff.mp h15).2 hm
  · intro hm
    exact permSignal_mem_ge _ _ 35 hm (by decide)

theorem a11y_bonus_iff_no_bind_perm_witness :
    "BIND_ACCESSIBILITY_SERVICE" ∈
      requestedPermsOf "service declares BIND_ACCESSIBILITY_SERVICE here" :=
  (a11y_bonus_iff_no_bind_perm "service declares BIND_ACCESSIBILITY_SERVICE here").2.1
    (by decide)
